import Mathlib

/-!
Verification of the appointment-intent pipeline of a WhatsApp assistant bot.

The embedding models the `reply` handler of `src/main.py` (steps 4-7:
parsing the model's JSON payload, storing the conversation, sending the
chat reply, and processing the appointment) together with the conflict
window query, and `src/app/sheets_sync.py`'s role as a collaborator whose
failure is observed by the handler's exception handling.

External collaborators (the GenAI model call, `json.loads`, `strptime`,
the Twilio transport, SQLAlchemy) are modelled at their boundaries:
`json.loads` by an `Option Json` input (`none` = raised), `strptime` by an
`Option (Nat × Nat)` date/time instant (`none` = `ValueError`), storage
and transport by an appointment store plus an event trace, and faults of
the fallible collaborators by boolean fault flags.
-/

set_option autoImplicit false

namespace WhatsappBot

/-- A parsed JSON value, as produced by Python's `json.loads`.
`null` doubles as Python `None` (which is what `json.loads` maps `null` to). -/
inductive Json where
  | null
  | bool (b : Bool)
  | num (n : Int)
  | str (s : String)
  | arr (elems : List Json)
  | obj (fields : List (String × Json))
deriving Repr

/-- Lookup of a key in a parsed JSON object (a Python `dict`): the fields
of a parsed object have unique keys. -/
def lookupField : List (String × Json) → String → Option Json
  | [], _ => none
  | (k, v) :: rest, key => if k == key then some v else lookupField rest key

/-- Python `dict.get(key, default)`: the stored value when the key is
present (including a stored `null`), the default otherwise. -/
def pyGetD (fields : List (String × Json)) (key : String) (dflt : Json) : Json :=
  (lookupField fields key).getD dflt

/-- Python truthiness of a value produced by `json.loads`:
`None`/`null`, `False`, `0`, `""`, `[]` and `{ }` are falsy. -/
def truthy : Json → Bool
  | .null => false
  | .bool b => b
  | .num n => n != 0
  | .str s => s != ""
  | .arr elems => !elems.isEmpty
  | .obj fields => !fields.isEmpty

/-- The fixed fallback reply preset before the parse `try` block
(`main.py` line 96). -/
def fallbackReply : String :=
  "I'm having trouble processing that right now. Please try again."

/-- The default used by `data.get("user_text", ...)` (`main.py` line 108). -/
def defaultUserText : String :=
  "I'm here to help with your real estate needs!"

/-- Check `all(appt_info.get(field) for field in ["name", "type", "date",
"time"])` (`main.py` lines 113-114): every required field is present
with a truthy value. -/
def requiredFieldsPresent (afields : List (String × Json)) : Bool :=
  ["name", "type", "date", "time"].all fun f => truthy (pyGetD afields f Json.null)

/-- The state left by step 4 of the handler: the chat reply value
(`chat_response`) and the appointment payload (`appt_info`, where
`Json.null` stands for Python `None`). -/
structure ParseState where
  chat : Json
  apptInfo : Json
deriving Repr

/-- Step 4 of the handler (`main.py` lines 94-119), over the result of
`json.loads` on the fence-stripped text (`none` = the parse raised).
Mutations inside the `try` block happen in order; on an exception the
variables keep the values they had when it was raised:

* `json.loads` raised: both variables keep their presets.
* the value is not an object: `data.get` raises `AttributeError` before
  `chat_response` is reassigned.
* the value is an object: `chat_response` and `appt_info` are assigned;
  if `appt_info` is truthy but not an object, `appt_info.get` raises
  `AttributeError` and both keep their just-assigned values; if it is a
  truthy object missing a required field it is reset to `None`. -/
def parsePayload (parsed : Option Json) : ParseState :=
  match parsed with
  | none => ⟨Json.str fallbackReply, Json.null⟩
  | some (Json.obj fields) =>
    let chat := pyGetD fields "user_text" (Json.str defaultUserText)
    let apptInfo := pyGetD fields "appointmentinfo" Json.null
    if truthy apptInfo then
      match apptInfo with
      | Json.obj afields =>
        if requiredFieldsPresent afields then ⟨chat, apptInfo⟩
        else ⟨chat, Json.null⟩
      | _ => ⟨chat, apptInfo⟩
    else ⟨chat, apptInfo⟩
  | some _ => ⟨Json.str fallbackReply, Json.null⟩

/-- A durable `Appointment` record (`app/models.py`, as used in `main.py`):
`date` is a day index and `time` minutes since midnight (`datetime.date`
and `datetime.time` values satisfy `time < 1440`). -/
structure Appointment where
  phone : String
  name : String
  type : String
  date : Nat
  time : Nat
deriving Repr, DecidableEq

/-- Window start `(appt_dt - timedelta(minutes=30)).time()` (`main.py` line 165): the
subtraction acts on the full datetime, then only the time of day is kept,
so for a candidate `t` minutes after midnight the start wraps modulo a day. -/
def windowStart (t : Nat) : Nat := (t + 1440 - 30) % 1440

/-- Window end `(appt_dt + timedelta(minutes=30)).time()` (`main.py` line 166). -/
def windowEnd (t : Nat) : Nat := (t + 30) % 1440

/-- The conflict query (`main.py` lines 168-172):
`db.query(Appointment).filter(date == appt_date, time >= start_time,
time <= end_time).first()` — the first stored appointment (of any kind) on
the same date whose time lies in the inclusive window. -/
def findConflict (store : List Appointment) (d t : Nat) : Option Appointment :=
  store.find? fun a =>
    a.date == d && decide (windowStart t ≤ a.time) && decide (a.time ≤ windowEnd t)

/-- Fault flags for the fallible collaborators: a `True` flag means the
corresponding call raises if and when the handler reaches it
(`SQLAlchemyError` from the two `db.commit()` calls, any exception from
`sync_appt_to_sheet()`, which has no handler of its own). -/
structure Faults where
  convCommitFails : Bool
  apptCommitFails : Bool
  sheetFails : Bool
deriving Repr, DecidableEq

/-- Observable side effects of one handler run, in program order. -/
inductive Event where
  | persistConv (sender message response : String)
  | sendMsg (recipient msg : String)
  | persistAppt (a : Appointment)
  | syncSheet
deriving Repr, DecidableEq

/-- The `confirmation_msg` of the cancellation branch (`main.py` line 160). -/
def cancellationMsg (name dateS timeS : String) : String :=
  "✓ Cancellation noted. " ++ name ++ "'s appointment on " ++ dateS ++
    " at " ++ timeS ++ " has been cancelled."

/-- The `confirmation_msg` of the booking branch (`main.py` line 189). -/
def bookingMsg (name typeS dateS timeS : String) : String :=
  "✓ Confirmed! " ++ name ++ "'s " ++ typeS ++ " on " ++ dateS ++
    " at " ++ timeS ++ "."

/-- The `conflict_msg` text (`main.py` line 194). -/
def conflictMsg : String :=
  "Sorry, Sherri already has an appointment at that time. Could you choose another time?"

/-- Step 7 of the handler (`main.py` lines 140-203): the appointment
sub-flow, run when `appt_info` is truthy. Arguments `name typeS dateS
timeS` are the string values of `appt_info`'s four fields; `dt` is the
result of `datetime.strptime(f"{date} {time}", "%Y-%m-%d %H:%M")` as
`(day, minutes-of-day)`, `none` when it raises `ValueError`. Returns the
store after the run and the emitted events. All exceptions are caught by
the handlers at lines 197-203: a `ValueError` or a failed commit (rolled
back) or a failed sheet sync ends the sub-flow with no further effects. -/
def processAppointment (f : Faults) (store : List Appointment) (phone : String)
    (name typeS dateS timeS : String) (dt : Option (Nat × Nat)) :
    List Appointment × List Event :=
  match dt with
  | none => (store, [])
  | some (d, t) =>
    if typeS == "cancellation" then
      if f.apptCommitFails then (store, [])
      else
        let a : Appointment := ⟨phone, name, typeS, d, t⟩
        (store ++ [a],
          [Event.persistAppt a, Event.sendMsg phone (cancellationMsg name dateS timeS)])
    else
      match findConflict store d t with
      | none =>
        if f.apptCommitFails then (store, [])
        else
          let a : Appointment := ⟨phone, name, typeS, d, t⟩
          if f.sheetFails then (store ++ [a], [Event.persistAppt a])
          else
            (store ++ [a],
              [Event.persistAppt a, Event.syncSheet,
               Event.sendMsg phone (bookingMsg name typeS dateS timeS)])
      | some _ => (store, [Event.sendMsg phone conflictMsg])

/-- Python `str()` as applied by an f-string to a field of `appt_info`.
Scalars render as in Python; composite renderings are abstracted to a
marker (no property proved here depends on them). -/
def pyStr : Json → String
  | .null => "None"
  | .bool true => "True"
  | .bool false => "False"
  | .num n => toString n
  | .str s => s
  | .arr _ => "<list>"
  | .obj _ => "<dict>"

/-- Subscript `appt_info[key]` on a validated payload object. -/
def jsonField (j : Json) (key : String) : Json :=
  match j with
  | Json.obj fields => (lookupField fields key).getD Json.null
  | _ => Json.null

/-- Step 6's transport limit (`main.py` lines 135-136): replies over 1600
characters are cut to 1597 plus a 3-character marker. -/
def truncateReply (s : String) : String :=
  if s.length > 1600 then (s.take 1597).append "..." else s

/-- Steps 5-7 of the handler (`main.py` lines 121-203) for a run whose
chat reply is the string `chat`: store the conversation (rollback and
continue on failure), send the chat reply, then run the appointment
sub-flow when `appt_info` is truthy. A truthy non-object `appt_info`
raises `TypeError` at the first subscript, caught at line 202, so only
the chat reply is sent. -/
def runPipeline (f : Faults) (store : List Appointment) (phone body chat : String)
    (apptInfo : Json) (dt : Option (Nat × Nat)) :
    List Appointment × List Event :=
  let convEvents :=
    if f.convCommitFails then [] else [Event.persistConv phone body chat]
  let sendEvent := Event.sendMsg phone (truncateReply chat)
  if truthy apptInfo then
    match apptInfo with
    | Json.obj _ =>
      let res := processAppointment f store phone
        (pyStr (jsonField apptInfo "name")) (pyStr (jsonField apptInfo "type"))
        (pyStr (jsonField apptInfo "date")) (pyStr (jsonField apptInfo "time")) dt
      (res.1, convEvents ++ sendEvent :: res.2)
    | _ => (store, convEvents ++ [sendEvent])
  else (store, convEvents ++ [sendEvent])

/-- The appointment-phase part of a run's trace: the events `runPipeline`
appends after the chat-reply send. -/
def apptPhase (f : Faults) (store : List Appointment) (phone : String)
    (apptInfo : Json) (dt : Option (Nat × Nat)) : List Event :=
  if truthy apptInfo then
    match apptInfo with
    | Json.obj _ =>
      (processAppointment f store phone
        (pyStr (jsonField apptInfo "name")) (pyStr (jsonField apptInfo "type"))
        (pyStr (jsonField apptInfo "date")) (pyStr (jsonField apptInfo "time")) dt).2
    | _ => []
  else []

/-- Every branch of step 4 on a parsed object leaves `chat_response` at
the value assigned by `data.get("user_text", ...)`. -/
theorem parsePayload_obj_chat (fields : List (String × Json)) :
    (parsePayload (some (Json.obj fields))).chat =
      pyGetD fields "user_text" (Json.str defaultUserText) := by
  simp only [parsePayload]
  split
  · split <;> (try split) <;> rfl
  · rfl

/-- Claim C2: for raw model output that is not parseable as a JSON object, the
parser yields the fixed fallback reply and no appointment intent, never
raising, and the pipeline run writes no `Appointment` record. -/
theorem c2_malformed_json_fallback_and_no_write (f : Faults)
    (store : List Appointment) (phone body chat : String) (dt : Option (Nat × Nat)) :
    (parsePayload none).chat = Json.str fallbackReply ∧
    truthy (parsePayload none).apptInfo = false ∧
    (runPipeline f store phone body chat (parsePayload none).apptInfo dt).1 = store ∧
    ∀ a : Appointment,
      Event.persistAppt a ∉
        (runPipeline f store phone body chat (parsePayload none).apptInfo dt).2 := by
  refine ⟨rfl, rfl, ?_, ?_⟩
  · simp [runPipeline, parsePayload, truthy]
  · intro a
    simp only [runPipeline, parsePayload, truthy]
    cases f.convCommitFails <;> simp

/-- Claim C5: when the parsed object carries an `appointmentinfo` object, the
intent is kept exactly when all four required fields are truthy; it is
then kept whole, and otherwise the turn has no intent. -/
theorem c5_intent_iff_all_fields (fields afields : List (String × Json))
    (hpresent : lookupField fields "appointmentinfo" = some (Json.obj afields)) :
    (truthy (parsePayload (some (Json.obj fields))).apptInfo = true ↔
      requiredFieldsPresent afields = true) ∧
    (requiredFieldsPresent afields = true →
      (parsePayload (some (Json.obj fields))).apptInfo = Json.obj afields) ∧
    (requiredFieldsPresent afields = false →
      truthy (parsePayload (some (Json.obj fields))).apptInfo = false) := by
  have hinfo : pyGetD fields "appointmentinfo" Json.null = Json.obj afields := by
    simp [pyGetD, hpresent]
  cases hempty : afields.isEmpty
  · have htruthy : truthy (Json.obj afields) = true := by simp [truthy, hempty]
    have hstep : parsePayload (some (Json.obj fields)) =
        if requiredFieldsPresent afields = true then
          ⟨pyGetD fields "user_text" (Json.str defaultUserText), Json.obj afields⟩
        else ⟨pyGetD fields "user_text" (Json.str defaultUserText), Json.null⟩ := by
      simp [parsePayload, hinfo, htruthy]
    by_cases hreq : requiredFieldsPresent afields = true
    · simp [hstep, hreq, htruthy]
    · simp only [Bool.not_eq_true] at hreq
      simp [hstep, hreq, truthy]
  · have hnil : afields = [] := List.isEmpty_iff.mp hempty
    subst hnil
    have hreq : requiredFieldsPresent [] = false := by
      simp [requiredFieldsPresent, pyGetD, lookupField, truthy]
    have hstep : parsePayload (some (Json.obj fields)) =
        ⟨pyGetD fields "user_text" (Json.str defaultUserText), Json.obj []⟩ := by
      simp [parsePayload, hinfo, truthy]
    simp [hstep, hreq, truthy]

/-- Witness for C5 at a concrete payload carrying a complete
`appointmentinfo` object. -/
theorem c5_intent_iff_all_fields_witness :
    lookupField
        [("user_text", Json.str "Let me check availability"),
         ("appointmentinfo", Json.obj
           [("name", Json.str "Jane Doe"), ("type", Json.str "showing"),
            ("date", Json.str "2026-03-02"), ("time", Json.str "14:00")])]
        "appointmentinfo" =
      some (Json.obj
        [("name", Json.str "Jane Doe"), ("type", Json.str "showing"),
         ("date", Json.str "2026-03-02"), ("time", Json.str "14:00")]) ∧
    ((truthy (parsePayload (some (Json.obj
        [("user_text", Json.str "Let me check availability"),
         ("appointmentinfo", Json.obj
           [("name", Json.str "Jane Doe"), ("type", Json.str "showing"),
            ("date", Json.str "2026-03-02"), ("time", Json.str "14:00")])]))).apptInfo = true ↔
      requiredFieldsPresent
        [("name", Json.str "Jane Doe"), ("type", Json.str "showing"),
         ("date", Json.str "2026-03-02"), ("time", Json.str "14:00")] = true) ∧
    (requiredFieldsPresent
        [("name", Json.str "Jane Doe"), ("type", Json.str "showing"),
         ("date", Json.str "2026-03-02"), ("time", Json.str "14:00")] = true →
      (parsePayload (some (Json.obj
        [("user_text", Json.str "Let me check availability"),
         ("appointmentinfo", Json.obj
           [("name", Json.str "Jane Doe"), ("type", Json.str "showing"),
            ("date", Json.str "2026-03-02"), ("time", Json.str "14:00")])]))).apptInfo =
        Json.obj
          [("name", Json.str "Jane Doe"), ("type", Json.str "showing"),
           ("date", Json.str "2026-03-02"), ("time", Json.str "14:00")]) ∧
    (requiredFieldsPresent
        [("name", Json.str "Jane Doe"), ("type", Json.str "showing"),
         ("date", Json.str "2026-03-02"), ("time", Json.str "14:00")] = false →
      truthy (parsePayload (some (Json.obj
        [("user_text", Json.str "Let me check availability"),
         ("appointmentinfo", Json.obj
           [("name", Json.str "Jane Doe"), ("type", Json.str "showing"),
            ("date", Json.str "2026-03-02"), ("time", Json.str "14:00")])]))).apptInfo =
        false)) :=
  ⟨rfl, c5_intent_iff_all_fields _ _ rfl⟩

/-- Counterexample to C6: a parsed object with no `user_text` key yields
the `data.get` default greeting, not the malformed-JSON fallback reply. -/
theorem c6_counterexample :
    (parsePayload (some (Json.obj [("appointmentinfo", Json.null)]))).chat =
      Json.str defaultUserText ∧
    Json.str defaultUserText ≠ Json.str fallbackReply := by
  refine ⟨rfl, ?_⟩
  intro h
  injection h with h2
  exact absurd h2 (by decide)

/-- Claim C6 as amended: a parsed JSON object lacking `user_text` is not a
parse failure; the reply is the default greeting and intent extraction
proceeds on `appointmentinfo` as usual. -/
theorem c6_amended_missing_user_text_default (fields : List (String × Json))
    (hmissing : lookupField fields "user_text" = none) :
    (parsePayload (some (Json.obj fields))).chat = Json.str defaultUserText := by
  rw [parsePayload_obj_chat]
  simp [pyGetD, hmissing]

/-- Witness for the amended C6 at a concrete object without `user_text`. -/
theorem c6_amended_missing_user_text_default_witness :
    lookupField [("appointmentinfo", Json.null)] "user_text" = none ∧
    (parsePayload (some (Json.obj [("appointmentinfo", Json.null)]))).chat =
      Json.str defaultUserText :=
  ⟨rfl, c6_amended_missing_user_text_default _ rfl⟩

/-- Counterexample to C1: an existing record of kind `"cancellation"` on
the same date at the very candidate time does cause a conflict — the
query filters only on date and time window, never on kind. -/
theorem c1_counterexample :
    findConflict [⟨"+15550000000", "Bob", "cancellation", 64, 600⟩] 64 600 =
      some ⟨"+15550000000", "Bob", "cancellation", 64, 600⟩ ∧
    (Appointment.type ⟨"+15550000000", "Bob", "cancellation", 64, 600⟩) = "cancellation" ∧
    (processAppointment ⟨false, false, false⟩
        [⟨"+15550000000", "Bob", "cancellation", 64, 600⟩] "+15551111111"
        "Jane Doe" "showing" "2026-03-05" "10:00" (some (64, 600))).2 =
      [Event.sendMsg "+15551111111" conflictMsg] ∧
    (processAppointment ⟨false, false, false⟩
        [⟨"+15550000000", "Bob", "cancellation", 64, 600⟩] "+15551111111"
        "Jane Doe" "showing" "2026-03-05" "10:00" (some (64, 600))).1 =
      [⟨"+15550000000", "Bob", "cancellation", 64, 600⟩] := by
  refine ⟨?_, rfl, ?_, ?_⟩ <;> rfl

/-- Claim C1 as amended: the conflict query considers every existing
appointment on the candidate's date regardless of its kind, so a stored
record — cancellation records included — whose time lies in the inclusive
window yields a conflict. -/
theorem c1_amended_any_kind_conflicts (store : List Appointment) (a : Appointment)
    (d t : Nat) (hmem : a ∈ store) (hdate : a.date = d)
    (hlo : windowStart t ≤ a.time) (hhi : a.time ≤ windowEnd t) :
    findConflict store d t ≠ none := by
  rw [Option.ne_none_iff_isSome, findConflict, List.find?_isSome]
  exact ⟨a, hmem, by simp [hdate, hlo, hhi]⟩

/-- Witness for the amended C1: a lone cancellation record inside the
window makes the resolver report a conflict. -/
theorem c1_amended_any_kind_conflicts_witness :
    (⟨"+15550000000", "Bob", "cancellation", 64, 600⟩ : Appointment) ∈
      [(⟨"+15550000000", "Bob", "cancellation", 64, 600⟩ : Appointment)] ∧
    findConflict [⟨"+15550000000", "Bob", "cancellation", 64, 600⟩] 64 615 ≠ none :=
  ⟨by simp,
    c1_amended_any_kind_conflicts _ ⟨"+15550000000", "Bob", "cancellation", 64, 600⟩
      64 615 (by simp) rfl (by decide) (by decide)⟩

/-- Claim C3: for a candidate whose window stays inside the day, the resolver
reports a conflict exactly when some stored appointment on the same date
lies within 30 minutes (inclusive) of the candidate time. -/
theorem c3_conflict_iff_within_30 (store : List Appointment) (d t : Nat)
    (hlo : 30 ≤ t) (hhi : t + 30 < 1440) :
    findConflict store d t ≠ none ↔
      ∃ a ∈ store, a.date = d ∧ t ≤ a.time + 30 ∧ a.time ≤ t + 30 := by
  have hws : windowStart t = t - 30 := by unfold windowStart; omega
  have hwe : windowEnd t = t + 30 := by unfold windowEnd; omega
  rw [Option.ne_none_iff_isSome, findConflict, List.find?_isSome]
  constructor
  · rintro ⟨a, hmem, hp⟩
    simp only [hws, hwe, Bool.and_eq_true, beq_iff_eq, decide_eq_true_eq] at hp
    exact ⟨a, hmem, hp.1.1, by omega, hp.2⟩
  · rintro ⟨a, hmem, hdate, h1, h2⟩
    refine ⟨a, hmem, ?_⟩
    simp only [hws, hwe, Bool.and_eq_true, beq_iff_eq, decide_eq_true_eq]
    exact ⟨⟨hdate, by omega⟩, h2⟩

/-- Witness for C3: an appointment exactly 30 minutes after the candidate
conflicts, and one 31 minutes after does not. -/
theorem c3_conflict_iff_within_30_witness :
    (30 ≤ 840 ∧ 840 + 30 < 1440 ∧
      findConflict [⟨"+15550000000", "Ann", "showing", 64, 870⟩] 64 840 ≠ none) ∧
    findConflict [⟨"+15550000000", "Ann", "showing", 64, 871⟩] 64 840 = none :=
  ⟨⟨by decide, by decide,
      (c3_conflict_iff_within_30 _ 64 840 (by decide) (by decide)).mpr
        ⟨⟨"+15550000000", "Ann", "showing", 64, 870⟩, by simp, rfl, by decide, by decide⟩⟩,
    by decide⟩

/-- Claim C10: when the candidate's ±30-minute window crosses midnight (time of
day before 00:30 or at/after 23:30), the clock-time window endpoints are
inverted and the inclusive query can match nothing, so the resolver
reports no conflict whatever the store holds. -/
theorem c10_midnight_window_matches_nothing (store : List Appointment) (d t : Nat)
    (ht : t < 1440) (hcross : t < 30 ∨ 1410 ≤ t) :
    windowEnd t < windowStart t ∧ findConflict store d t = none := by
  have hend : windowEnd t < windowStart t := by
    unfold windowStart windowEnd; rcases hcross with h | h <;> omega
  refine ⟨hend, ?_⟩
  rw [findConflict, List.find?_eq_none]
  intro a _
  simp only [Bool.and_eq_true, beq_iff_eq, decide_eq_true_eq, not_and]
  intro h1 h2
  have hlo := h1.2
  omega

/-- Witness for C10: a 23:59 candidate sails past an existing appointment
at exactly 23:59 on the same date. -/
theorem c10_midnight_window_matches_nothing_witness :
    (1439 < 1440 ∧ (1439 < 30 ∨ 1410 ≤ 1439)) ∧
    windowEnd 1439 < windowStart 1439 ∧
    findConflict [⟨"+15550000000", "Ann", "showing", 64, 1439⟩] 64 1439 = none :=
  ⟨⟨by decide, Or.inr (by decide)⟩,
    c10_midnight_window_matches_nothing _ 64 1439 (by decide) (Or.inr (by decide))⟩

/-- Claim C4: a validated cancellation intent skips the conflict check
unconditionally — whatever the store holds — persisting the record and
emitting a confirmation that carries the name, date and time. -/
theorem c4_cancellation_unconditional (f : Faults) (store : List Appointment)
    (phone name dateS timeS : String) (d t : Nat)
    (hcommit : f.apptCommitFails = false) :
    processAppointment f store phone name "cancellation" dateS timeS (some (d, t)) =
      (store ++ [⟨phone, name, "cancellation", d, t⟩],
        [Event.persistAppt ⟨phone, name, "cancellation", d, t⟩,
         Event.sendMsg phone (cancellationMsg name dateS timeS)]) ∧
    (∃ u v, cancellationMsg name dateS timeS = u ++ name ++ v) ∧
    (∃ u v, cancellationMsg name dateS timeS = u ++ dateS ++ v) ∧
    (∃ u v, cancellationMsg name dateS timeS = u ++ timeS ++ v) := by
  refine ⟨by simp [processAppointment, hcommit], ?_, ?_, ?_⟩
  · exact ⟨"✓ Cancellation noted. ",
      "'s appointment on " ++ dateS ++ " at " ++ timeS ++ " has been cancelled.",
      by simp [cancellationMsg, String.append_assoc]⟩
  · exact ⟨"✓ Cancellation noted. " ++ name ++ "'s appointment on ",
      " at " ++ timeS ++ " has been cancelled.",
      by simp [cancellationMsg, String.append_assoc]⟩
  · exact ⟨"✓ Cancellation noted. " ++ name ++ "'s appointment on " ++ dateS ++ " at ",
      " has been cancelled.",
      by simp [cancellationMsg, String.append_assoc]⟩

/-- Witness for C4: a concrete cancellation is persisted over a store
already holding a booking at the very same instant. -/
theorem c4_cancellation_unconditional_witness :
    Faults.apptCommitFails ⟨false, false, false⟩ = false ∧
    (processAppointment ⟨false, false, false⟩
        [⟨"+15550000000", "Ann", "showing", 61, 840⟩] "+15551111111"
        "Jane Doe" "cancellation" "2026-03-02" "14:00" (some (61, 840)) =
      ([⟨"+15550000000", "Ann", "showing", 61, 840⟩,
        ⟨"+15551111111", "Jane Doe", "cancellation", 61, 840⟩],
        [Event.persistAppt ⟨"+15551111111", "Jane Doe", "cancellation", 61, 840⟩,
         Event.sendMsg "+15551111111" (cancellationMsg "Jane Doe" "2026-03-02" "14:00")]) ∧
      (∃ u v, cancellationMsg "Jane Doe" "2026-03-02" "14:00" = u ++ "Jane Doe" ++ v) ∧
      (∃ u v, cancellationMsg "Jane Doe" "2026-03-02" "14:00" = u ++ "2026-03-02" ++ v) ∧
      (∃ u v, cancellationMsg "Jane Doe" "2026-03-02" "14:00" = u ++ "14:00" ++ v)) :=
  ⟨rfl, c4_cancellation_unconditional ⟨false, false, false⟩ _ _ _ _ _ 61 840 rfl⟩

/-- Claim C7: when the appointment commit raises a storage error on a run that
attempts a write, the error is caught and rolled back — the store is
unchanged and no appointment-specific message or mirror sync happens —
and a run whose date/time fails to parse likewise ends quietly. -/
theorem c7_persistence_failure_contained (f : Faults) (store : List Appointment)
    (phone name typeS dateS timeS : String) (d t : Nat)
    (hfail : f.apptCommitFails = true)
    (hwrite : typeS = "cancellation" ∨ findConflict store d t = none) :
    processAppointment f store phone name typeS dateS timeS (some (d, t)) =
      (store, []) ∧
    processAppointment f store phone name typeS dateS timeS none = (store, []) := by
  refine ⟨?_, rfl⟩
  by_cases htype : (typeS == "cancellation") = true
  · simp [processAppointment, htype, hfail]
  · simp only [Bool.not_eq_true] at htype
    rcases hwrite with h | h
    · rw [h] at htype; simp at htype
    · simp [processAppointment, htype, h, hfail]

/-- Witness for C7: a failed commit of a fresh booking leaves an empty
store empty and sends nothing. -/
theorem c7_persistence_failure_contained_witness :
    Faults.apptCommitFails ⟨false, true, false⟩ = true ∧
    ("showing" = "cancellation" ∨ findConflict ([] : List Appointment) 61 840 = none) ∧
    (processAppointment ⟨false, true, false⟩ [] "+15551111111"
        "Jane Doe" "showing" "2026-03-02" "14:00" (some (61, 840)) = ([], []) ∧
      processAppointment ⟨false, true, false⟩ [] "+15551111111"
        "Jane Doe" "showing" "2026-03-02" "14:00" none = ([], [])) :=
  ⟨rfl, Or.inr rfl,
    c7_persistence_failure_contained ⟨false, true, false⟩ [] _ _ _ _ _ 61 840 rfl
      (Or.inr rfl)⟩

/-- Claim C8: every handler run sends the (truncated) chat reply before any
event of the appointment sub-flow: the trace splits at the chat send,
everything before it is at most the conversation-store write, and
everything after it is exactly the appointment sub-flow's trace. -/
theorem c8_reply_precedes_appointment (f : Faults) (store : List Appointment)
    (phone body chat : String) (apptInfo : Json) (dt : Option (Nat × Nat)) :
    ∃ pre post,
      (runPipeline f store phone body chat apptInfo dt).2 =
        pre ++ Event.sendMsg phone (truncateReply chat) :: post ∧
      (∀ e ∈ pre, ∃ s m r, e = Event.persistConv s m r) ∧
      (post = [] ∨
        post = (processAppointment f store phone
          (pyStr (jsonField apptInfo "name")) (pyStr (jsonField apptInfo "type"))
          (pyStr (jsonField apptInfo "date")) (pyStr (jsonField apptInfo "time"))
          dt).2) := by
  refine ⟨if f.convCommitFails then [] else [Event.persistConv phone body chat],
    apptPhase f store phone apptInfo dt, ?_, ?_, ?_⟩
  · unfold runPipeline apptPhase
    cases ht : truthy apptInfo
    · cases f.convCommitFails <;> simp
    · cases apptInfo <;> cases f.convCommitFails <;> simp [ht]
  · intro e he
    cases hc : f.convCommitFails <;> rw [hc] at he <;> simp at he
    exact ⟨phone, body, chat, he⟩
  · unfold apptPhase
    cases ht : truthy apptInfo
    · simp
    · cases apptInfo <;> simp

/-- Counterexample to C9: when the spreadsheet mirror call raises, the
booking stays committed but the run emits no further message — the
booking-confirmation is not sent, contrary to the claim. -/
theorem c9_counterexample :
    processAppointment ⟨false, false, true⟩ [] "+15551234567"
        "Jane Doe" "showing" "2026-03-02" "14:00" (some (61, 840)) =
      ([⟨"+15551234567", "Jane Doe", "showing", 61, 840⟩],
        [Event.persistAppt ⟨"+15551234567", "Jane Doe", "showing", 61, 840⟩]) ∧
    ∀ r m, Event.sendMsg r m ∉
      (processAppointment ⟨false, false, true⟩ [] "+15551234567"
        "Jane Doe" "showing" "2026-03-02" "14:00" (some (61, 840))).2 := by
  refine ⟨rfl, ?_⟩
  intro r m
  show Event.sendMsg r m ∉
    [Event.persistAppt ⟨"+15551234567", "Jane Doe", "showing", 61, 840⟩]
  simp

/-- Claim C9 as amended: a mirror-notification failure leaves the committed
booking in place, but the enclosing handler catches it and the rest of
the sub-flow is skipped, so the booking-confirmation is not sent. -/
theorem c9_amended_sheet_failure (f : Faults) (store : List Appointment)
    (phone name typeS dateS timeS : String) (d t : Nat)
    (hsheet : f.sheetFails = true) (hcommit : f.apptCommitFails = false)
    (htype : (typeS == "cancellation") = false)
    (hnoconf : findConflict store d t = none) :
    processAppointment f store phone name typeS dateS timeS (some (d, t)) =
      (store ++ [⟨phone, name, typeS, d, t⟩],
        [Event.persistAppt ⟨phone, name, typeS, d, t⟩]) := by
  simp [processAppointment, htype, hnoconf, hcommit, hsheet]

/-- Witness for the amended C9 at a concrete booking. -/
theorem c9_amended_sheet_failure_witness :
    Faults.sheetFails ⟨false, false, true⟩ = true ∧
    Faults.apptCommitFails ⟨false, false, true⟩ = false ∧
    ("consultation" == "cancellation") = false ∧
    findConflict ([] : List Appointment) 61 840 = none ∧
    processAppointment ⟨false, false, true⟩ [] "+15551234567"
        "Ann Lee" "consultation" "2026-03-02" "14:00" (some (61, 840)) =
      ([⟨"+15551234567", "Ann Lee", "consultation", 61, 840⟩],
        [Event.persistAppt ⟨"+15551234567", "Ann Lee", "consultation", 61, 840⟩]) :=
  ⟨rfl, rfl, rfl, rfl,
    c9_amended_sheet_failure ⟨false, false, true⟩ [] _ _ _ _ _ 61 840 rfl rfl rfl rfl⟩

end WhatsappBot
